import Mathlib

/-!
Verification development for the MedLens analysis-normalization and
report-lifecycle core (src/services/modelAdapter.ts, the report viewer's
feedback/approval handlers, and the upload page's report construction).

Numbers in the model payload are embedded as rationals, strings as `String`,
optional JSON fields as `Option`. JavaScript truthiness on the relevant
values is made explicit: for numbers `a || d` treats 0 as absent, for
strings it treats "" as absent, and for arrays any array (even empty) is
truthy. Ambient nondeterminism (Date.now, Math.random) is passed in as
explicit id-source functions `ts : Nat → Nat` and `rnd : Nat → String`,
indexed by the order in which ids are generated.
-/

/-- JavaScript `a || d` on an optional number: 0 (and absence) falls back. -/
def jsOrNum (c : Option ℚ) (d : ℚ) : ℚ :=
  match c with
  | some v => if v = 0 then d else v
  | none => d

/-- JavaScript `a || d` on an optional string: "" (and absence) falls back. -/
def jsOrStr (s : Option String) (d : String) : String :=
  match s with
  | some v => if v = "" then d else v
  | none => d

/-- JavaScript `a || d` on an optional array: any present array is truthy. -/
def jsOrList (l : Option (List String)) (d : List String) : List String :=
  match l with
  | some v => v
  | none => d

/-- Bounding box in top-left/size form, as built by the normalizer. -/
structure BBox where
  x : ℚ
  y : ℚ
  width : ℚ
  height : ℚ
deriving DecidableEq

/-- Evidence record attached to a finding (modelAdapter.ts, processHighlights). -/
structure Evidence where
  fileId : String
  confidence : ℚ
  source : String
  bbox : Option BBox
deriving DecidableEq

/-- Clinician feedback stored on a finding (ReportViewer, submitFeedback). -/
structure Feedback where
  isAccurate : Bool
  correction : Option String
  timestamp : String
deriving DecidableEq

/-- Finding category: the TypeScript union 'Finding' | 'Impression'. -/
inductive FindingCategory where
  | finding
  | impression
deriving DecidableEq

/-- A discrete observation attached to a report (types consumed by the app).
The classification finding built by `mapModelResponseToApp` omits the
icdCodes field, hence the `Option`. -/
structure Finding where
  id : String
  category : FindingCategory
  text : String
  confidence : ℚ
  explanation : String
  explanationEn : String
  suggestedActions : List String
  icdCodes : Option (List String)
  evidence : List Evidence
  feedback : Option Feedback := none
deriving DecidableEq

/-- One entry of highlights.regions_of_interest or highlights.artifacts. -/
structure HighlightItem where
  label : String
  description : String
  confidence : Option ℚ
  box_2d : Option (ℚ × ℚ × ℚ × ℚ)
deriving DecidableEq

/-- The highlights object of the raw model payload; each list may be absent. -/
structure Highlights where
  regions_of_interest : Option (List HighlightItem)
  artifacts : Option (List HighlightItem)
deriving DecidableEq

/-- Raw model JSON payload as consumed by `mapModelResponseToApp`. -/
structure ModelData where
  file_type : Option String := none
  summary_patient : Option String := none
  summary_student : Option String := none
  summary_doctor : Option String := none
  summary_patient_en : Option String := none
  summary_student_en : Option String := none
  summary_doctor_en : Option String := none
  highlights : Option Highlights := none
  recommendations_patient : Option (List String) := none
  recommendations_student : Option (List String) := none
  recommendations_doctor : Option (List String) := none
  recommendations_patient_en : Option (List String) := none
  recommendations_student_en : Option (List String) := none
  recommendations_doctor_en : Option (List String) := none
  confidence_overall : Option ℚ := none
  disclaimer : Option String := none
deriving DecidableEq

/-- The AnalysisResult interface of modelAdapter.ts. -/
structure AnalysisResult where
  summary : String
  findings : List Finding
  summaryPatient : String
  summaryStudent : String
  summaryDoctor : String
  summaryPatientEn : String
  summaryStudentEn : String
  summaryDoctorEn : String
  recommendationsPatient : List String
  recommendationsStudent : List String
  recommendationsDoctor : List String
  recommendationsPatientEn : List String
  recommendationsStudentEn : List String
  recommendationsDoctorEn : List String
deriving DecidableEq

/-- The regions_of_interest list reached through optional chaining
(`data.highlights?.regions_of_interest`, absent lists give no findings). -/
def regionsOf (data : ModelData) : List HighlightItem :=
  match data.highlights with
  | none => []
  | some h => match h.regions_of_interest with
    | none => []
    | some l => l

/-- The artifacts list reached through optional chaining. -/
def artifactsOf (data : ModelData) : List HighlightItem :=
  match data.highlights with
  | none => []
  | some h => match h.artifacts with
    | none => []
    | some l => l

/-- JavaScript String.replace with a string pattern replaces only the first
occurrence; specialised here to single characters. -/
def replaceFirstChar : List Char → Char → Char → List Char
  | [], _, _ => []
  | c :: cs, p, r => if c = p then r :: cs else c :: replaceFirstChar cs p r

/-- JavaScript toUpperCase, character by character. -/
def jsUpper (s : String) : String := s.map Char.toUpper

/-- `data.file_type?.replace('_', ' ').toUpperCase()` inside a template
literal: an absent file_type renders as the string "undefined". -/
def fileTypeDisplay : Option String → String
  | some s => jsUpper ⟨replaceFirstChar s.data '_' ' '⟩
  | none => "undefined"

/-- Evidence list of a region/artifact finding: one record when box_2d is
supplied, converting [ymin, xmin, ymax, xmax] to {x, y, width, height}. -/
def highlightEvidence (fileId : String) (item : HighlightItem) : List Evidence :=
  match item.box_2d with
  | some (ymin, xmin, ymax, xmax) =>
      [{ fileId := fileId
       , confidence := jsOrNum item.confidence (4/5)
       , source := "MODEL_VISION"
       , bbox := some { x := xmin, y := ymin, width := xmax - xmin, height := ymax - ymin } }]
  | none => []

/-- The finding pushed for the k-th highlight entry (k counts all pushes so
far across both lists; it indexes the ambient id sources). -/
def highlightFinding (data : ModelData) (fileId : String) (ts : Nat → Nat)
    (rnd : Nat → String) (k : Nat) (item : HighlightItem) : Finding :=
  { id := "find-" ++ toString (ts k) ++ "-" ++ rnd k
  , category := .finding
  , text := item.label ++ ": " ++ item.description
  , confidence := jsOrNum item.confidence (4/5)
  , explanation := jsOrStr data.summary_student "Visual pattern detected."
  , explanationEn := jsOrStr data.summary_student_en "Visual pattern detected."
  , suggestedActions := jsOrList data.recommendations_student []
  , icdCodes := some []
  , evidence := highlightEvidence fileId item
  , feedback := none }

/-- processHighlights of modelAdapter.ts: pushes one finding per entry, in
list order; `k` is the number of findings already pushed. -/
def processHighlights (data : ModelData) (fileId : String) (ts : Nat → Nat)
    (rnd : Nat → String) : Nat → List HighlightItem → List Finding
  | _, [] => []
  | k, item :: rest =>
      highlightFinding data fileId ts rnd k item ::
        processHighlights data fileId ts rnd (k + 1) rest

/-- The synthetic file-classification finding unshifted to the front; its id
draws the clock after the 2·(N+M) region/artifact draws, index k. -/
def classificationFinding (data : ModelData) (ts : Nat → Nat) (k : Nat) : Finding :=
  { id := "ft-" ++ toString (ts k)
  , category := .impression
  , text := "File Classification: " ++ fileTypeDisplay data.file_type
  , confidence := jsOrNum data.confidence_overall (9/10)
  , explanation := "Classified based on visual features."
  , explanationEn := "Classified based on visual features."
  , suggestedActions := []
  , icdCodes := none
  , evidence := []
  , feedback := none }

/-- mapModelResponseToApp of modelAdapter.ts: regions, then artifacts, then
the classification finding unshifted to index 0, plus the twelve
summary/recommendation fields with JavaScript || fallbacks. -/
def mapModelResponseToApp (data : ModelData) (fileId : String) (ts : Nat → Nat)
    (rnd : Nat → String) : AnalysisResult :=
  let regions := regionsOf data
  let arts := artifactsOf data
  { summary := jsOrStr data.summary_patient "Analysis complete."
  , findings :=
      classificationFinding data ts (regions.length + arts.length) ::
        (processHighlights data fileId ts rnd 0 regions ++
         processHighlights data fileId ts rnd regions.length arts)
  , summaryPatient := jsOrStr data.summary_patient ""
  , summaryStudent := jsOrStr data.summary_student ""
  , summaryDoctor := jsOrStr data.summary_doctor ""
  , summaryPatientEn := jsOrStr data.summary_patient_en (jsOrStr data.summary_patient "")
  , summaryStudentEn := jsOrStr data.summary_student_en (jsOrStr data.summary_student "")
  , summaryDoctorEn := jsOrStr data.summary_doctor_en (jsOrStr data.summary_doctor "")
  , recommendationsPatient := jsOrList data.recommendations_patient []
  , recommendationsStudent := jsOrList data.recommendations_student []
  , recommendationsDoctor := jsOrList data.recommendations_doctor []
  , recommendationsPatientEn := jsOrList data.recommendations_patient_en (jsOrList data.recommendations_patient [])
  , recommendationsStudentEn := jsOrList data.recommendations_student_en (jsOrList data.recommendations_student [])
  , recommendationsDoctorEn := jsOrList data.recommendations_doctor_en (jsOrList data.recommendations_doctor []) }

/-- A file handed to the gateway (id, data URL, MIME type, name). -/
structure ReportFile where
  id : String
  url : String
  mime : String
  name : String
deriving DecidableEq

/-- Credential sources visible to getApiKey, in the order it consults them:
localStorage, the window global, the build-time environment variable. -/
structure Env where
  localKey : Option String
  windowKey : Option String
  envKey : Option String

/-- JavaScript String.trim: strip whitespace from both ends. -/
def jsTrim (s : String) : String :=
  ⟨(s.data.dropWhile Char.isWhitespace).reverse.dropWhile Char.isWhitespace |>.reverse⟩

/-- Step 3 of getApiKey: the build-time environment value if truthy, else
the empty string. -/
def getApiKeyFromEnv (env : Env) : String :=
  match env.envKey with
  | some e => if e = "" then "" else e
  | none => ""

/-- Step 2 of getApiKey: the runtime window global if truthy, else step 3. -/
def getApiKeyFromWindow (env : Env) : String :=
  match env.windowKey with
  | some w => if w = "" then getApiKeyFromEnv env else w
  | none => getApiKeyFromEnv env

/-- getApiKey of modelAdapter.ts: a localStorage key with non-empty trim wins
(returned trimmed); else a truthy window global; else a truthy environment
value; else the empty string. -/
def getApiKey (env : Env) : String :=
  match env.localKey with
  | some k =>
    if 0 < (jsTrim k).length then jsTrim k else getApiKeyFromWindow env
  | none => getApiKeyFromWindow env

/-- What the external model channel yields, abstracting the transport and
JSON.parse: no text, unparseable text, a parsed payload, or a thrown
transport error carrying a message. -/
inductive ModelChannel where
  | noText
  | malformed
  | parsed (data : ModelData)
  | transportFailure (msg : String)

/-- Substring test used for the error-message classification. -/
def strContains (s pat : String) : Bool := decide (pat.data <:+: s.data)

/-- The catch-block message rewriting of analyzeMedicalImage. -/
def classifyErrorMessage (msg : String) : String :=
  if strContains msg "API key not valid" || strContains msg "API_KEY" then
    "Invalid API Key. Please update it in the Admin Configuration."
  else if strContains msg "fetch" then
    "Network Error: Could not connect to Google AI services."
  else if strContains msg "400" then
    "The image format is not supported or corrupted."
  else if strContains msg "503" then
    "The AI service is currently overloaded. Please try again in a moment."
  else msg

/-- The fixed simulated payload of simulateAnalysis (modelAdapter.ts). -/
def mockData : ModelData :=
  { file_type := some "demo_simulation"
  , summary_patient := some "⚠️ DEMO MODE: REAL AI IS DISABLED."
  , summary_student := some "To enable Real AI Analysis: Go to Admin Panel > Configuration > API Key Management and enter your Gemini API Key."
  , summary_doctor := some "MISSING_API_KEY: The application is running in Simulation Mode because no API Key was found in LocalStorage or Environment Variables."
  , summary_patient_en := some "⚠️ DEMO MODE: REAL AI IS DISABLED."
  , summary_student_en := some "To enable Real AI Analysis: Go to Admin Panel > Configuration > API Key Management and enter your Gemini API Key."
  , summary_doctor_en := some "MISSING_API_KEY: The application is running in Simulation Mode because no API Key was found in LocalStorage or Environment Variables."
  , highlights := some
      { regions_of_interest := some
          [{ label := "Configuration Error", description := "API Key Not Found"
           , confidence := some 1, box_2d := some (10, 10, 90, 90) }]
      , artifacts := some [] }
  , recommendations_patient := some ["Go to Admin Page", "Click Configuration Tab", "Enter API Key"]
  , recommendations_student := some []
  , recommendations_doctor := some []
  , recommendations_patient_en := some ["Go to Admin Page", "Click Configuration Tab", "Enter API Key"]
  , recommendations_student_en := some []
  , recommendations_doctor_en := some []
  , confidence_overall := some 0
  , disclaimer := some "SIMULATION ONLY" }

/-- simulateAnalysis: normalizes the fixed mock payload for the given file. -/
def simulateAnalysis (file : ReportFile) (ts : Nat → Nat) (rnd : Nat → String) :
    AnalysisResult :=
  mapModelResponseToApp mockData file.id ts rnd

/-- analyzeMedicalImage: with no resolvable credential it falls back to the
simulation and succeeds; otherwise the channel outcome is normalized or the
error message is classified. -/
def analyzeMedicalImage (env : Env) (channel : ModelChannel) (file : ReportFile)
    (ts : Nat → Nat) (rnd : Nat → String) : Except String AnalysisResult :=
  if getApiKey env = "" then
    .ok (simulateAnalysis file ts rnd)
  else
    match channel with
    | .noText => .error (classifyErrorMessage "The AI model returned an empty response. Please try again.")
    | .malformed => .error (classifyErrorMessage "Failed to parse the medical report. The AI response was malformed.")
    | .parsed data => .ok (mapModelResponseToApp data file.id ts rnd)
    | .transportFailure msg => .error (classifyErrorMessage msg)

/-- Report lifecycle status values used by the core. -/
inductive ReportStatus where
  | reviewRequired
  | approved
deriving DecidableEq

/-- One analyzed document instance, as constructed by handleSubmit. -/
structure Report where
  id : String
  patientId : String
  patientName : String
  createdAt : String
  status : ReportStatus
  files : List ReportFile
  findings : List Finding
  summary : String
  language : String
  summaryPatient : String
  summaryStudent : String
  summaryDoctor : String
  recommendationsPatient : List String
  recommendationsStudent : List String
  recommendationsDoctor : List String
  summaryPatientEn : String
  summaryStudentEn : String
  summaryDoctorEn : String
  recommendationsPatientEn : List String
  recommendationsStudentEn : List String
  recommendationsDoctorEn : List String
deriving DecidableEq

/-- Patient reference as used by handleSubmit. -/
structure Patient where
  id : String
  name : String
deriving DecidableEq

/-- The newReport object literal of handleSubmit (UploadReport page):
status is always ReviewRequired on creation. -/
def mkReport (repId : String) (patient : Patient) (createdAt : String)
    (file : ReportFile) (language : String) (analysis : AnalysisResult) : Report :=
  { id := repId
  , patientId := patient.id
  , patientName := patient.name
  , createdAt := createdAt
  , status := .reviewRequired
  , files := [file]
  , findings := analysis.findings
  , summary := analysis.summary
  , language := language
  , summaryPatient := analysis.summaryPatient
  , summaryStudent := analysis.summaryStudent
  , summaryDoctor := analysis.summaryDoctor
  , recommendationsPatient := analysis.recommendationsPatient
  , recommendationsStudent := analysis.recommendationsStudent
  , recommendationsDoctor := analysis.recommendationsDoctor
  , summaryPatientEn := analysis.summaryPatientEn
  , summaryStudentEn := analysis.summaryStudentEn
  , summaryDoctorEn := analysis.summaryDoctorEn
  , recommendationsPatientEn := analysis.recommendationsPatientEn
  , recommendationsStudentEn := analysis.recommendationsStudentEn
  , recommendationsDoctorEn := analysis.recommendationsDoctorEn }

/-- handleApprove of the report viewer: sets status to Approved. -/
def handleApprove (r : Report) : Report := { r with status := .approved }

/-- submitFeedback of the report viewer, at the findings-list level: maps over
the current findings, replacing the feedback of every finding whose id
matches; all other findings pass through unchanged. The timestamp is the
caller's clock reading (`new Date().toISOString()`), passed explicitly. -/
def submitFeedback (findings : List Finding) (findingId : String)
    (isAccurate : Bool) (correction : Option String) (timestamp : String) :
    List Finding :=
  findings.map fun f =>
    if f.id = findingId then
      { f with feedback := some { isAccurate := isAccurate, correction := correction, timestamp := timestamp } }
    else f

/-- submitFeedback followed by the store's updateReport. Modelled from the
spec: the store implementation itself is outside the packaged sources; per
the spec, mutation is a full-record replace, so updateReport(id, fields)
merges the given fields into the stored report — here, the finding list. -/
def submitFeedbackReport (r : Report) (findingId : String) (isAccurate : Bool)
    (correction : Option String) (timestamp : String) : Report :=
  { r with findings := submitFeedback r.findings findingId isAccurate correction timestamp }

/-- The mutations the core offers on an existing report: approval and
feedback recording. -/
inductive CoreOp where
  | approve
  | feedback (findingId : String) (isAccurate : Bool) (correction : Option String) (timestamp : String)

/-- Apply one core operation to a report. -/
def applyOp (r : Report) : CoreOp → Report
  | .approve => handleApprove r
  | .feedback fid acc corr t => submitFeedbackReport r fid acc corr t

/-- Apply a sequence of core operations, left to right. -/
def applyOps (r : Report) (ops : List CoreOp) : Report := ops.foldl applyOp r

/-! ### Shared structural lemmas about the normalizer output -/

theorem processHighlights_length (data : ModelData) (fileId : String)
    (ts : Nat → Nat) (rnd : Nat → String) (k : Nat) (l : List HighlightItem) :
    (processHighlights data fileId ts rnd k l).length = l.length := by
  induction l generalizing k with
  | nil => rfl
  | cons hd tl ih => simp [processHighlights, ih]

theorem processHighlights_get (data : ModelData) (fileId : String)
    (ts : Nat → Nat) (rnd : Nat → String) (k i : Nat) (l : List HighlightItem) :
    (processHighlights data fileId ts rnd k l)[i]?
      = (l[i]?).map (fun item => highlightFinding data fileId ts rnd (k + i) item) := by
  induction l generalizing k i with
  | nil => simp [processHighlights]
  | cons hd tl ih =>
    cases i with
    | zero => rw [processHighlights]; simp
    | succ n =>
      rw [processHighlights, List.getElem?_cons_succ, List.getElem?_cons_succ, ih,
        show k + 1 + n = k + (n + 1) by omega]

theorem mapModelResponseToApp_findings (data : ModelData) (fileId : String)
    (ts : Nat → Nat) (rnd : Nat → String) :
    (mapModelResponseToApp data fileId ts rnd).findings
      = classificationFinding data ts ((regionsOf data).length + (artifactsOf data).length)
          :: (processHighlights data fileId ts rnd 0 (regionsOf data)
              ++ processHighlights data fileId ts rnd (regionsOf data).length (artifactsOf data)) := rfl

theorem findings_length (data : ModelData) (fileId : String)
    (ts : Nat → Nat) (rnd : Nat → String) :
    (mapModelResponseToApp data fileId ts rnd).findings.length
      = 1 + (regionsOf data).length + (artifactsOf data).length := by
  rw [mapModelResponseToApp_findings, List.length_cons, List.length_append,
    processHighlights_length, processHighlights_length]
  omega

theorem findings_get_region (data : ModelData) (fileId : String)
    (ts : Nat → Nat) (rnd : Nat → String) {i : Nat} {item : HighlightItem}
    (h : (regionsOf data)[i]? = some item) :
    (mapModelResponseToApp data fileId ts rnd).findings[1 + i]?
      = some (highlightFinding data fileId ts rnd i item) := by
  obtain ⟨hi, -⟩ := List.getElem?_eq_some_iff.mp h
  rw [mapModelResponseToApp_findings, show 1 + i = i + 1 by omega,
    List.getElem?_cons_succ,
    List.getElem?_append_left (by rwa [processHighlights_length]),
    processHighlights_get]
  simp [h]

theorem findings_get_artifact (data : ModelData) (fileId : String)
    (ts : Nat → Nat) (rnd : Nat → String) {j : Nat} {item : HighlightItem}
    (h : (artifactsOf data)[j]? = some item) :
    (mapModelResponseToApp data fileId ts rnd).findings[1 + (regionsOf data).length + j]?
      = some (highlightFinding data fileId ts rnd ((regionsOf data).length + j) item) := by
  rw [mapModelResponseToApp_findings,
    show 1 + (regionsOf data).length + j = ((regionsOf data).length + j) + 1 by omega,
    List.getElem?_cons_succ,
    List.getElem?_append_right (by rw [processHighlights_length]; omega),
    processHighlights_length,
    show (regionsOf data).length + j - (regionsOf data).length = j by omega,
    processHighlights_get]
  simp [h]

/-! ### Concrete sample inputs used by witnesses and counterexamples -/

/-- A region entry with explicit confidence and bounding box. -/
def sampleRegion : HighlightItem :=
  { label := "Nodule", description := "3mm opacity"
  , confidence := some 1, box_2d := some (10, 20, 30, 40) }

/-- An artifact entry with neither confidence nor bounding box. -/
def sampleArtifact : HighlightItem :=
  { label := "Marker", description := "lead marker", confidence := none, box_2d := none }

/-- A payload with one region and one artifact. -/
def sampleData : ModelData :=
  { highlights := some { regions_of_interest := some [sampleRegion]
                       , artifacts := some [sampleArtifact] } }

/-- A fixed clock reading for concrete runs. -/
def ts0 : Nat → Nat := fun _ => 0

/-- A fixed random-suffix source for concrete runs. -/
def rnd0 : Nat → String := fun _ => "w"

/-- A concrete uploaded file. -/
def sampleFile : ReportFile :=
  { id := "file-1", url := "data:image/png;base64,AAAA", mime := "image/png", name := "scan.png" }

/-- A concrete report built the way handleSubmit builds one. -/
def sampleReport : Report :=
  mkReport "rep-1" { id := "p1", name := "Pat" } "2024-01-01T00:00:00.000Z"
    sampleFile "English" (mapModelResponseToApp sampleData sampleFile.id ts0 rnd0)

/-! ### Claim theorems -/

/-- C1: for every raw payload with N region entries and M artifact entries,
the normalizer produces exactly 1 + N + M findings; the synthetic
file-classification finding (category Impression) sits at index 0, the i-th
region finding at index 1 + i in the model's emitted order, and the j-th
artifact finding at index 1 + N + j; absent or empty lists contribute zero
additional findings (they make N or M zero in the length equation). -/
theorem c1_normalize_shape (data : ModelData) (fileId : String)
    (ts : Nat → Nat) (rnd : Nat → String) :
    ((mapModelResponseToApp data fileId ts rnd).findings.length
        = 1 + (regionsOf data).length + (artifactsOf data).length)
    ∧ ((mapModelResponseToApp data fileId ts rnd).findings[0]?
          = some (classificationFinding data ts
              ((regionsOf data).length + (artifactsOf data).length))
        ∧ (classificationFinding data ts
            ((regionsOf data).length + (artifactsOf data).length)).category
          = FindingCategory.impression)
    ∧ (∀ i item, (regionsOf data)[i]? = some item →
        (mapModelResponseToApp data fileId ts rnd).findings[1 + i]?
          = some (highlightFinding data fileId ts rnd i item))
    ∧ (∀ j item, (artifactsOf data)[j]? = some item →
        (mapModelResponseToApp data fileId ts rnd).findings[1 + (regionsOf data).length + j]?
          = some (highlightFinding data fileId ts rnd ((regionsOf data).length + j) item)) := by
  refine ⟨findings_length data fileId ts rnd, ⟨?_, rfl⟩, ?_, ?_⟩
  · rw [mapModelResponseToApp_findings, List.getElem?_cons_zero]
  · intro i item h
    exact findings_get_region data fileId ts rnd h
  · intro j item h
    exact findings_get_artifact data fileId ts rnd h

/-- Witness for C1 at a payload with one region and one artifact. -/
theorem c1_normalize_shape_witness :
    ((regionsOf sampleData)[0]? = some sampleRegion)
    ∧ ((mapModelResponseToApp sampleData "f" ts0 rnd0).findings[1 + 0]?
        = some (highlightFinding sampleData "f" ts0 rnd0 0 sampleRegion))
    ∧ ((artifactsOf sampleData)[0]? = some sampleArtifact)
    ∧ ((mapModelResponseToApp sampleData "f" ts0 rnd0).findings[1 + (regionsOf sampleData).length + 0]?
        = some (highlightFinding sampleData "f" ts0 rnd0 ((regionsOf sampleData).length + 0) sampleArtifact)) :=
  ⟨by decide,
   (c1_normalize_shape sampleData "f" ts0 rnd0).2.2.1 0 sampleRegion (by decide),
   by decide,
   (c1_normalize_shape sampleData "f" ts0 rnd0).2.2.2 0 sampleArtifact (by decide)⟩

/-- Erase the ambient-generated identifier of a finding. -/
def eraseFindingId (f : Finding) : Finding := { f with id := "" }

theorem eraseId_processHighlights (data : ModelData) (fileId : String)
    (ts ts' : Nat → Nat) (rnd rnd' : Nat → String) (k k' : Nat)
    (l : List HighlightItem) :
    (processHighlights data fileId ts rnd k l).map eraseFindingId
      = (processHighlights data fileId ts' rnd' k' l).map eraseFindingId := by
  induction l generalizing k k' with
  | nil => rfl
  | cons hd tl ih =>
    simp only [processHighlights, List.map_cons]
    exact congrArg₂ _ rfl (ih _ _)

/-- C4 counterexample: the normalizer reads the ambient clock and random
source for finding identifiers, so two runs on the same (rawJson, fileId)
input made at different instants return different AnalysisResult values —
the produced finding ids differ. -/
theorem c4_determinism_counterexample :
    mapModelResponseToApp sampleData "f" (fun _ => 0) (fun _ => "a")
      ≠ mapModelResponseToApp sampleData "f" (fun _ => 1) (fun _ => "b") := by
  intro hEq
  exact absurd (congrArg (fun r => r.findings.map Finding.id) hEq) (by decide)

/-- C4 amended: the normalizer is deterministic in (rawJson, fileId) up to
the generated finding identifiers: any two runs agree on the finding lists
with ids erased and on every other field of the result. -/
theorem c4_normalize_deterministic_up_to_ids (data : ModelData) (fileId : String)
    (ts ts' : Nat → Nat) (rnd rnd' : Nat → String) :
    ((mapModelResponseToApp data fileId ts rnd).findings.map eraseFindingId
        = (mapModelResponseToApp data fileId ts' rnd').findings.map eraseFindingId)
    ∧ ({ mapModelResponseToApp data fileId ts rnd with findings := [] }
        = { mapModelResponseToApp data fileId ts' rnd' with findings := [] }) := by
  constructor
  · rw [mapModelResponseToApp_findings, mapModelResponseToApp_findings,
      List.map_cons, List.map_cons, List.map_append, List.map_append]
    exact congrArg₂ _ rfl (congrArg₂ _
      (eraseId_processHighlights data fileId ts ts' rnd rnd' 0 0 (regionsOf data))
      (eraseId_processHighlights data fileId ts ts' rnd rnd'
        (regionsOf data).length (regionsOf data).length (artifactsOf data)))
  · rfl

theorem submitFeedbackReport_unchanged (r : Report) (fid : String) (acc : Bool)
    (corr : Option String) (t : String)
    (h : ∀ f ∈ r.findings, f.id ≠ fid) :
    submitFeedbackReport r fid acc corr t = r := by
  have hmap : submitFeedback r.findings fid acc corr t = r.findings := by
    unfold submitFeedback
    conv_rhs => rw [← List.map_id r.findings]
    exact List.map_congr_left fun f hf => by simp [h f hf]
  unfold submitFeedbackReport
  rw [hmap]

/-- C2 counterexample: submitting feedback for an identifier matching no
finding does not fail at all — the handler is total, completes normally and
returns the report with its finding list unchanged; the code raises no
FindingNotFound error. -/
theorem c2_feedback_counterexample :
    submitFeedbackReport sampleReport "missing-id" true none "2024-01-02T00:00:00.000Z"
      = sampleReport :=
  submitFeedbackReport_unchanged sampleReport "missing-id" true none
    "2024-01-02T00:00:00.000Z" (by decide)

/-- C2 amended: for every report and every identifier matching no finding in
its current finding list, recordFeedback completes without signalling any
error and leaves the report — in particular every finding — unchanged. -/
theorem c2_feedback_missing_id (r : Report) (fid : String) (acc : Bool)
    (corr : Option String) (t : String)
    (h : ∀ f ∈ r.findings, f.id ≠ fid) :
    submitFeedbackReport r fid acc corr t = r :=
  submitFeedbackReport_unchanged r fid acc corr t h

/-- Witness for C2 amended at a concrete report and absent identifier. -/
theorem c2_feedback_missing_id_witness :
    submitFeedbackReport sampleReport "nope" true none "t" = sampleReport :=
  c2_feedback_missing_id sampleReport "nope" true none "t" (by decide)

/-- C8: feedback recording is idempotent-overwrite — two successive
submissions for the same finding id are equivalent to the latest one alone,
and every finding carrying that id ends up with exactly the latest feedback
record (the feedback slot is a single optional field: no history). -/
theorem c8_feedback_overwrite (fs : List Finding) (fid : String)
    (b1 b2 : Bool) (k1 k2 : Option String) (u1 u2 : String) :
    (submitFeedback (submitFeedback fs fid b1 k1 u1) fid b2 k2 u2
        = submitFeedback fs fid b2 k2 u2)
    ∧ (∀ f ∈ submitFeedback (submitFeedback fs fid b1 k1 u1) fid b2 k2 u2,
        f.id = fid →
          f.feedback = some { isAccurate := b2, correction := k2, timestamp := u2 }) := by
  have key : submitFeedback (submitFeedback fs fid b1 k1 u1) fid b2 k2 u2
      = submitFeedback fs fid b2 k2 u2 := by
    unfold submitFeedback
    rw [List.map_map]
    refine List.map_congr_left fun f _ => ?_
    by_cases hf : f.id = fid <;> simp [Function.comp, hf]
  refine ⟨key, ?_⟩
  rw [key]
  intro f hf hid
  unfold submitFeedback at hf
  obtain ⟨g, hg, rfl⟩ := List.mem_map.mp hf
  by_cases hgid : g.id = fid
  · simp [hgid]
  · simp [hgid] at hid

/-- A standalone concrete finding for feedback scenarios. -/
def sampleFinding : Finding :=
  { id := "f1", category := .finding, text := "Nodule: 3mm opacity"
  , confidence := 1, explanation := "e", explanationEn := "e"
  , suggestedActions := [], icdCodes := some [], evidence := [], feedback := none }

/-- Witness for C8: after submitting twice, the matching finding carries the
latest feedback record. -/
theorem c8_feedback_overwrite_witness :
    ({ sampleFinding with feedback := some { isAccurate := false, correction := some "c", timestamp := "t2" } } : Finding).feedback
      = some { isAccurate := false, correction := some "c", timestamp := "t2" } :=
  (c8_feedback_overwrite [sampleFinding] "f1" true false none (some "c") "t1" "t2").2
    _ (by decide) (by decide)

/-- C9: reports are created in ReviewRequired, the approve handler moves the
status to Approved, and no sequence of core operations (approval, feedback
recording) moves an Approved report back to ReviewRequired. -/
theorem c9_lifecycle_one_directional (repId : String) (patient : Patient)
    (createdAt : String) (file : ReportFile) (language : String)
    (analysis : AnalysisResult) :
    ((mkReport repId patient createdAt file language analysis).status
        = ReportStatus.reviewRequired)
    ∧ (∀ r : Report, (applyOp r CoreOp.approve).status = ReportStatus.approved)
    ∧ (∀ (r : Report) (ops : List CoreOp), r.status = ReportStatus.approved →
        (applyOps r ops).status = ReportStatus.approved) := by
  refine ⟨rfl, fun r => rfl, ?_⟩
  intro r ops h
  induction ops generalizing r with
  | nil => exact h
  | cons op rest ih =>
    cases op with
    | approve => exact ih (handleApprove r) rfl
    | feedback fid acc corr t => exact ih (submitFeedbackReport r fid acc corr t) h

/-- C3: with no resolvable credential, the gateway resolves successfully
(it does not reject) with the simulated result, whose six summary fields are
exactly the fixed demonstration-mode notices — the patient summaries flag
demo mode, the student summaries explain how to supply the key, the doctor
summaries name the missing key; in particular summary_patient contains the
substring "DEMO MODE". -/
theorem c3_no_credential_simulation (env : Env) (channel : ModelChannel)
    (file : ReportFile) (ts : Nat → Nat) (rnd : Nat → String)
    (h : getApiKey env = "") :
    (analyzeMedicalImage env channel file ts rnd
        = Except.ok (simulateAnalysis file ts rnd))
    ∧ (simulateAnalysis file ts rnd).summaryPatient
        = "⚠️ DEMO MODE: REAL AI IS DISABLED."
    ∧ (simulateAnalysis file ts rnd).summaryStudent
        = "To enable Real AI Analysis: Go to Admin Panel > Configuration > API Key Management and enter your Gemini API Key."
    ∧ (simulateAnalysis file ts rnd).summaryDoctor
        = "MISSING_API_KEY: The application is running in Simulation Mode because no API Key was found in LocalStorage or Environment Variables."
    ∧ (simulateAnalysis file ts rnd).summaryPatientEn
        = "⚠️ DEMO MODE: REAL AI IS DISABLED."
    ∧ (simulateAnalysis file ts rnd).summaryStudentEn
        = "To enable Real AI Analysis: Go to Admin Panel > Configuration > API Key Management and enter your Gemini API Key."
    ∧ (simulateAnalysis file ts rnd).summaryDoctorEn
        = "MISSING_API_KEY: The application is running in Simulation Mode because no API Key was found in LocalStorage or Environment Variables."
    ∧ strContains (simulateAnalysis file ts rnd).summaryPatient "DEMO MODE" = true := by
  refine ⟨?_, rfl, rfl, rfl, rfl, rfl, rfl, ?_⟩
  · unfold analyzeMedicalImage
    rw [h]
    simp
  · show strContains "⚠️ DEMO MODE: REAL AI IS DISABLED." "DEMO MODE" = true
    decide

/-- Witness for C3 with all three credential sources absent. -/
theorem c3_no_credential_simulation_witness :
    analyzeMedicalImage { localKey := none, windowKey := none, envKey := none }
        ModelChannel.noText sampleFile ts0 rnd0
      = Except.ok (simulateAnalysis sampleFile ts0 rnd0) :=
  (c3_no_credential_simulation { localKey := none, windowKey := none, envKey := none }
      ModelChannel.noText sampleFile ts0 rnd0 rfl).1

/-- Payload whose declared overall confidence is exactly 0. -/
def zeroOverallData : ModelData := { confidence_overall := some 0 }

/-- C5 counterexample: with confidence_overall declared as exactly 0, the
synthetic classification finding is not assigned the model's
confidence_overall — the JavaScript || fallback treats 0 as absent and
assigns 0.9 instead. -/
theorem c5_confidence_counterexample :
    zeroOverallData.confidence_overall = some 0
    ∧ ((mapModelResponseToApp zeroOverallData "f" ts0 rnd0).findings[0]?).map Finding.confidence
        = some (9/10)
    ∧ ((9 : ℚ)/10 ≠ 0) := by
  refine ⟨rfl, ?_, by norm_num⟩
  rw [mapModelResponseToApp_findings, List.getElem?_cons_zero]
  simp [classificationFinding, jsOrNum, zeroOverallData]

/-- C5 amended: every region/artifact finding whose entry lacks an explicit
confidence gets exactly 0.8; the synthetic classification finding gets the
model's confidence_overall when that is present and non-zero, and exactly
0.9 when it is absent (or zero, per the || fallback); every produced finding
thus carries a defined confidence value. -/
theorem c5_confidence_defaults (data : ModelData) (fileId : String)
    (ts : Nat → Nat) (rnd : Nat → String) :
    (∀ i item, (regionsOf data)[i]? = some item → item.confidence = none →
      ((mapModelResponseToApp data fileId ts rnd).findings[1 + i]?).map Finding.confidence
        = some (4/5))
    ∧ (∀ j item, (artifactsOf data)[j]? = some item → item.confidence = none →
      ((mapModelResponseToApp data fileId ts rnd).findings[1 + (regionsOf data).length + j]?).map Finding.confidence
        = some (4/5))
    ∧ (data.confidence_overall = none →
      ((mapModelResponseToApp data fileId ts rnd).findings[0]?).map Finding.confidence
        = some (9/10))
    ∧ (∀ q : ℚ, data.confidence_overall = some q → q ≠ 0 →
      ((mapModelResponseToApp data fileId ts rnd).findings[0]?).map Finding.confidence
        = some q) := by
  refine ⟨?_, ?_, ?_, ?_⟩
  · intro i item h hconf
    rw [findings_get_region data fileId ts rnd h]
    simp [highlightFinding, jsOrNum, hconf]
  · intro j item h hconf
    rw [findings_get_artifact data fileId ts rnd h]
    simp [highlightFinding, jsOrNum, hconf]
  · intro h
    rw [mapModelResponseToApp_findings, List.getElem?_cons_zero]
    simp [classificationFinding, jsOrNum, h]
  · intro q h hq
    rw [mapModelResponseToApp_findings, List.getElem?_cons_zero]
    simp [classificationFinding, jsOrNum, h, hq]

/-- Witness for C5 amended: in the sample payload the artifact entry lacks a
confidence and gets 0.8, and confidence_overall is absent so the
classification finding gets 0.9. -/
theorem c5_confidence_defaults_witness :
    ((artifactsOf sampleData)[0]? = some sampleArtifact)
    ∧ (sampleArtifact.confidence = none)
    ∧ (((mapModelResponseToApp sampleData "f" ts0 rnd0).findings[1 + (regionsOf sampleData).length + 0]?).map Finding.confidence
        = some (4/5))
    ∧ (sampleData.confidence_overall = none)
    ∧ (((mapModelResponseToApp sampleData "f" ts0 rnd0).findings[0]?).map Finding.confidence
        = some (9/10)) :=
  ⟨by decide, rfl,
   (c5_confidence_defaults sampleData "f" ts0 rnd0).2.1 0 sampleArtifact (by decide) rfl,
   rfl,
   (c5_confidence_defaults sampleData "f" ts0 rnd0).2.2.1 rfl⟩

/-- A payload whose English patient summary is present but empty while the
localized patient summary is non-empty. -/
def emptyEnData : ModelData :=
  { summary_patient := some "localized text", summary_patient_en := some "" }

/-- C6 counterexample: the claim reads "equals the model's English-specific
field when present"; here summary_patient_en is present (the empty string),
yet the normalizer returns the localized value instead — JavaScript ||
treats a present empty string as absent. -/
theorem c6_english_fallback_counterexample :
    emptyEnData.summary_patient_en = some ""
    ∧ (mapModelResponseToApp emptyEnData "f" ts0 rnd0).summaryPatientEn = "localized text"
    ∧ ("localized text" : String) ≠ "" := by
  exact ⟨rfl, by decide, by decide⟩

/-- Local part of the amended English-summary resolution rule: the localized
field when present and non-empty, else the empty string. -/
def englishSummaryLocalPart : Option String → String
  | some t => if t ≠ "" then t else ""
  | none => ""

/-- Amended resolution rule for the English summary fields, stated from the
spec side: the English-specific field when present and non-empty, else the
localized field when present and non-empty, else the empty string. -/
def englishSummarySelect (en loc : Option String) : String :=
  match en with
  | some s => if s ≠ "" then s else englishSummaryLocalPart loc
  | none => englishSummaryLocalPart loc

/-- Resolution rule for the English recommendation lists, stated from the
spec side: the English-specific list when present (any array is truthy, even
the empty one), else the localized list when present, else the empty list. -/
def englishRecsSelect (en loc : Option (List String)) : List String :=
  match en with
  | some l => l
  | none =>
    match loc with
    | some m => m
    | none => []

theorem jsOrStr_eq_select (en loc : Option String) :
    jsOrStr en (jsOrStr loc "") = englishSummarySelect en loc := by
  cases en <;> cases loc <;>
    simp [jsOrStr, englishSummarySelect, englishSummaryLocalPart, ite_not]

theorem jsOrList_eq_select (en loc : Option (List String)) :
    jsOrList en (jsOrList loc []) = englishRecsSelect en loc := by
  cases en <;> cases loc <;> rfl

/-- C6 amended: each of the six English-export fields equals the
English-specific field when that is present and non-empty (for summaries;
for recommendation lists, whenever present, even empty), else the localized
field under the same convention, else the empty string/list; the result
fields are total values, so no audience field is ever undefined. -/
theorem c6_english_fallback (data : ModelData) (fileId : String)
    (ts : Nat → Nat) (rnd : Nat → String) :
    ((mapModelResponseToApp data fileId ts rnd).summaryPatientEn
        = englishSummarySelect data.summary_patient_en data.summary_patient)
    ∧ ((mapModelResponseToApp data fileId ts rnd).summaryStudentEn
        = englishSummarySelect data.summary_student_en data.summary_student)
    ∧ ((mapModelResponseToApp data fileId ts rnd).summaryDoctorEn
        = englishSummarySelect data.summary_doctor_en data.summary_doctor)
    ∧ ((mapModelResponseToApp data fileId ts rnd).recommendationsPatientEn
        = englishRecsSelect data.recommendations_patient_en data.recommendations_patient)
    ∧ ((mapModelResponseToApp data fileId ts rnd).recommendationsStudentEn
        = englishRecsSelect data.recommendations_student_en data.recommendations_student)
    ∧ ((mapModelResponseToApp data fileId ts rnd).recommendationsDoctorEn
        = englishRecsSelect data.recommendations_doctor_en data.recommendations_doctor) :=
  ⟨jsOrStr_eq_select _ _, jsOrStr_eq_select _ _, jsOrStr_eq_select _ _,
   jsOrList_eq_select _ _, jsOrList_eq_select _ _, jsOrList_eq_select _ _⟩

/-- C7: a region/artifact entry supplying a box_2d quadruple
[ymin, xmin, ymax, xmax] yields exactly one evidence record whose bbox is
{x := xmin, y := ymin, width := xmax - xmin, height := ymax - ymin};
an entry without box_2d yields an empty evidence list. -/
theorem c7_bbox_conversion (data : ModelData) (fileId : String)
    (ts : Nat → Nat) (rnd : Nat → String) :
    (∀ i item ymin xmin ymax xmax, (regionsOf data)[i]? = some item →
      item.box_2d = some (ymin, xmin, ymax, xmax) →
      ∃ f, (mapModelResponseToApp data fileId ts rnd).findings[1 + i]? = some f
        ∧ f.evidence = [{ fileId := fileId
                        , confidence := jsOrNum item.confidence (4/5)
                        , source := "MODEL_VISION"
                        , bbox := some { x := xmin, y := ymin
                                       , width := xmax - xmin, height := ymax - ymin } }])
    ∧ (∀ i item, (regionsOf data)[i]? = some item → item.box_2d = none →
      ∃ f, (mapModelResponseToApp data fileId ts rnd).findings[1 + i]? = some f
        ∧ f.evidence = [])
    ∧ (∀ j item ymin xmin ymax xmax, (artifactsOf data)[j]? = some item →
      item.box_2d = some (ymin, xmin, ymax, xmax) →
      ∃ f, (mapModelResponseToApp data fileId ts rnd).findings[1 + (regionsOf data).length + j]? = some f
        ∧ f.evidence = [{ fileId := fileId
                        , confidence := jsOrNum item.confidence (4/5)
                        , source := "MODEL_VISION"
                        , bbox := some { x := xmin, y := ymin
                                       , width := xmax - xmin, height := ymax - ymin } }])
    ∧ (∀ j item, (artifactsOf data)[j]? = some item → item.box_2d = none →
      ∃ f, (mapModelResponseToApp data fileId ts rnd).findings[1 + (regionsOf data).length + j]? = some f
        ∧ f.evidence = []) := by
  refine ⟨?_, ?_, ?_, ?_⟩
  · intro i item ymin xmin ymax xmax h hbox
    exact ⟨_, findings_get_region data fileId ts rnd h,
      by simp [highlightFinding, highlightEvidence, hbox]⟩
  · intro i item h hbox
    exact ⟨_, findings_get_region data fileId ts rnd h,
      by simp [highlightFinding, highlightEvidence, hbox]⟩
  · intro j item ymin xmin ymax xmax h hbox
    exact ⟨_, findings_get_artifact data fileId ts rnd h,
      by simp [highlightFinding, highlightEvidence, hbox]⟩
  · intro j item h hbox
    exact ⟨_, findings_get_artifact data fileId ts rnd h,
      by simp [highlightFinding, highlightEvidence, hbox]⟩

/-- The scenario region entry of the claim: Nodule, confidence 0.95,
box_2d [10, 20, 30, 40]. -/
def noduleItem : HighlightItem :=
  { label := "Nodule", description := "3mm opacity"
  , confidence := some (95/100), box_2d := some (10, 20, 30, 40) }

/-- The scenario payload of the claim: one region, artifacts empty. -/
def noduleData : ModelData :=
  { highlights := some { regions_of_interest := some [noduleItem], artifacts := some [] } }

/-- Witness for C7: the claim's scenario yields two findings, and finding 1
carries one evidence record with bbox {y := 10, x := 20, height := 20,
width := 20}. -/
theorem c7_bbox_conversion_witness :
    ((mapModelResponseToApp noduleData "f" ts0 rnd0).findings.length = 2)
    ∧ (∃ f, (mapModelResponseToApp noduleData "f" ts0 rnd0).findings[1 + 0]? = some f
        ∧ f.evidence = [{ fileId := "f"
                        , confidence := jsOrNum noduleItem.confidence (4/5)
                        , source := "MODEL_VISION"
                        , bbox := some { x := 20, y := 10, width := 20, height := 20 } }]) := by
  constructor
  · decide
  · obtain ⟨f, hf, hev⟩ :=
      (c7_bbox_conversion noduleData "f" ts0 rnd0).1 0 noduleItem 10 20 30 40
        (by simp [regionsOf, noduleData]) rfl
    refine ⟨f, hf, ?_⟩
    rw [hev]
    norm_num

/-- A region entry declaring confidence exactly 0, with a bounding box. -/
def zeroRegion : HighlightItem :=
  { label := "R", description := "d", confidence := some 0, box_2d := some (0, 0, 1, 1) }

/-- An artifact entry declaring confidence exactly 0, without a box. -/
def zeroArtifact : HighlightItem :=
  { label := "A", description := "d", confidence := some 0, box_2d := none }

/-- Payload declaring confidence 0 on a region, an artifact and overall. -/
def zeroConfData : ModelData :=
  { highlights := some { regions_of_interest := some [zeroRegion]
                       , artifacts := some [zeroArtifact] }
  , confidence_overall := some 0 }

/-- C10: an explicit confidence of exactly 0 is treated as absent — region
and artifact entries with confidence 0 produce findings (and evidence
records) with confidence 0.8, a payload with confidence_overall 0 yields a
classification finding with confidence 0.9, and the simulated payload
(which declares confidence_overall 0.0) produces a classification finding
with confidence 0.9 rather than 0. -/
theorem c10_zero_confidence_as_absent (data : ModelData) (fileId : String)
    (ts : Nat → Nat) (rnd : Nat → String) :
    (∀ i item, (regionsOf data)[i]? = some item → item.confidence = some (0 : ℚ) →
      ∃ f, (mapModelResponseToApp data fileId ts rnd).findings[1 + i]? = some f
        ∧ f.confidence = 4/5 ∧ ∀ e ∈ f.evidence, e.confidence = 4/5)
    ∧ (∀ j item, (artifactsOf data)[j]? = some item → item.confidence = some (0 : ℚ) →
      ∃ f, (mapModelResponseToApp data fileId ts rnd).findings[1 + (regionsOf data).length + j]? = some f
        ∧ f.confidence = 4/5 ∧ ∀ e ∈ f.evidence, e.confidence = 4/5)
    ∧ (data.confidence_overall = some 0 →
      ((mapModelResponseToApp data fileId ts rnd).findings[0]?).map Finding.confidence
        = some (9/10))
    ∧ (∀ file : ReportFile,
      ((simulateAnalysis file ts rnd).findings[0]?).map Finding.confidence
        = some (9/10)) := by
  have evConf : ∀ (fileId' : String) (item : HighlightItem),
      item.confidence = some (0 : ℚ) →
      ∀ e ∈ highlightEvidence fileId' item, e.confidence = 4/5 := by
    intro fileId' item hconf e he
    cases hb : item.box_2d with
    | none => simp [highlightEvidence, hb] at he
    | some q =>
      obtain ⟨ymin, xmin, ymax, xmax⟩ := q
      simp [highlightEvidence, hb] at he
      simp [he, jsOrNum, hconf]
  refine ⟨?_, ?_, ?_, ?_⟩
  · intro i item h hconf
    exact ⟨_, findings_get_region data fileId ts rnd h,
      by simp [highlightFinding, jsOrNum, hconf],
      evConf fileId item hconf⟩
  · intro j item h hconf
    exact ⟨_, findings_get_artifact data fileId ts rnd h,
      by simp [highlightFinding, jsOrNum, hconf],
      evConf fileId item hconf⟩
  · intro h
    rw [mapModelResponseToApp_findings, List.getElem?_cons_zero]
    simp [classificationFinding, jsOrNum, h]
  · intro file
    simp only [simulateAnalysis]
    rw [mapModelResponseToApp_findings, List.getElem?_cons_zero]
    simp [classificationFinding, jsOrNum, mockData]

/-- Witness for C10 at a payload declaring zero confidences everywhere. -/
theorem c10_zero_confidence_as_absent_witness :
    (∃ f, (mapModelResponseToApp zeroConfData "f" ts0 rnd0).findings[1 + 0]? = some f
        ∧ f.confidence = 4/5 ∧ ∀ e ∈ f.evidence, e.confidence = 4/5)
    ∧ (((mapModelResponseToApp zeroConfData "f" ts0 rnd0).findings[0]?).map Finding.confidence
        = some (9/10))
    ∧ (((simulateAnalysis sampleFile ts0 rnd0).findings[0]?).map Finding.confidence
        = some (9/10)) :=
  ⟨(c10_zero_confidence_as_absent zeroConfData "f" ts0 rnd0).1 0 zeroRegion (by decide) rfl,
   (c10_zero_confidence_as_absent zeroConfData "f" ts0 rnd0).2.2.1 rfl,
   (c10_zero_confidence_as_absent zeroConfData "f" ts0 rnd0).2.2.2 sampleFile⟩

/-- Witness for C9: an approved report stays approved across a feedback
submission and a repeated approval. -/
theorem c9_lifecycle_one_directional_witness :
    (applyOps (handleApprove sampleReport)
        [CoreOp.feedback "missing" true none "t", CoreOp.approve]).status
      = ReportStatus.approved :=
  (c9_lifecycle_one_directional "rep-1" { id := "p1", name := "Pat" }
      "2024-01-01T00:00:00.000Z" sampleFile "English"
      (mapModelResponseToApp sampleData sampleFile.id ts0 rnd0)).2.2
    (handleApprove sampleReport)
    [CoreOp.feedback "missing" true none "t", CoreOp.approve] rfl
